import Mathlib

/-
  Shallow embedding of the payment-first checkout pipeline of the
  MahaLaxmi backend (src/controller/orderController.ts and
  src/services/paymentService.ts), together with theorems settling the
  spec claims about it.

  Modelling conventions:
  * The MongoDB store is a `DB` record of lists of rows.
  * `Float` money amounts are modelled as `Int` (the claims are about
    which value is recorded, not about floating-point arithmetic).
  * `Date` values are `Int` millisecond timestamps.
  * Network effects (the PhonePe HTTP calls) are passed in as explicit
    outcome parameters; a thrown JS exception is an `Except.error` or an
    explicit failure branch.
  * The sha256 hex digest used for callback checksums is an abstract
    function parameter `h : String → String`.
  * A database write that throws mid-way through `createOrderFromPaymentSession`
    is modelled by a step counter: `some k` means the first `k` of the five
    sequential writes succeeded and the next one threw.
-/

namespace MahaLaxmi

/-- Session status enum of the `PaymentSession` model. -/
inductive SessionStatus where
  | PENDING
  | SUCCESS
  | FAILED
  | EXPIRED
deriving DecidableEq, Repr

/-- A row of the `products` collection (fields the pipeline reads). -/
structure Product where
  id : String
  name : String
  price : Int
  stock : Int
  isActive : Bool
deriving DecidableEq, Repr

/-- A row of the `cart` collection. -/
structure CartItem where
  id : String
  userId : String
  productId : String
  quantity : Int
deriving DecidableEq, Repr

/-- A row of the `payment_sessions` collection (fields the pipeline reads). -/
structure PaymentSession where
  id : String
  transactionId : String
  userId : String
  amount : Int
  cartItemIds : List String
  status : SessionStatus
  expiresAt : Int
  completedAt : Option Int
  phonePeTransactionId : Option String
  orderId : Option String
  paymentUrl : Option String
deriving DecidableEq, Repr

/-- A row of the `orders` collection (fields written by materialization). -/
structure Order where
  id : String
  userId : String
  totalAmount : Int
  paymentId : Option String
deriving DecidableEq, Repr

/-- A row of the `order_items` collection. -/
structure OrderItem where
  orderId : String
  productId : String
  quantity : Int
  price : Int
deriving DecidableEq, Repr

/-- The database state touched by the checkout pipeline.  Users are kept
as a list of ids, which is all `createPaymentSession` reads of them. -/
structure DB where
  users : List String
  products : List Product
  carts : List CartItem
  sessions : List PaymentSession
  orders : List Order
  orderItems : List OrderItem
deriving DecidableEq, Repr

/-- `prisma.product.findUnique({ where: { id } })`. -/
def findProduct (db : DB) (pid : String) : Option Product :=
  db.products.find? (fun p => p.id == pid)

/-- `prisma.paymentSession.findUnique({ where: { transactionId } })`. -/
def findSessionByTxn (db : DB) (txn : String) : Option PaymentSession :=
  db.sessions.find? (fun s => s.transactionId == txn)

/-- `prisma.cart.findMany({ where: { userId, id: { in: ids } } })`. -/
def selectedCartItems (db : DB) (userId : String) (ids : List String) : List CartItem :=
  db.carts.filter (fun c => c.userId == userId && ids.contains c.id)

/-- The cart rows joined with their product (`include: { product: true }`). -/
def cartWithProduct (db : DB) (userId : String) (ids : List String) :
    List (CartItem × Product) :=
  (selectedCartItems db userId ids).filterMap
    (fun c => (findProduct db c.productId).map (fun p => (c, p)))

/-- `prisma.paymentSession.update({ where: { id } , data })`, as a map over
the stored sessions. -/
def updateSession (db : DB) (sid : String) (f : PaymentSession → PaymentSession) : DB :=
  { db with sessions := db.sessions.map (fun s => if s.id == sid then f s else s) }

/-- `prisma.product.update({ where: { id }, data: { stock: { decrement } } })`:
an unconditional decrement, with no `stock >= quantity` guard in the filter. -/
def updateProductStock (db : DB) (pid : String) (dec : Int) : DB :=
  let f := fun (p : Product) =>
    if p.id == pid then { p with stock := p.stock - dec } else p
  { db with products := db.products.map f }

/-- The `catch` branch of `createOrderFromPaymentSession`: mark the payment
session FAILED. -/
def setSessionFailed (db : DB) (sid : String) : DB :=
  updateSession db sid (fun s => { s with status := SessionStatus.FAILED })

/-- One of the five sequential writes of `createOrderFromPaymentSession`,
in source order: create the order row, create its order items, decrement
stock per cart item, delete the consumed cart rows, record `orderId` on
the session.  `items` is the cart join fetched once at entry. -/
def orderCreateStep (s : PaymentSession) (oid : String)
    (items : List (CartItem × Product)) (n : Nat) (db : DB) : DB :=
  match n with
  | 0 =>
    let newOrders := db.orders ++ [⟨oid, s.userId, s.amount, s.phonePeTransactionId⟩]
    { db with orders := newOrders }
  | 1 =>
    let newItems : List OrderItem :=
      items.map (fun cp => ⟨oid, cp.1.productId, cp.1.quantity, cp.2.price⟩)
    { db with orderItems := db.orderItems ++ newItems }
  | 2 => items.foldl (fun d cp => updateProductStock d cp.1.productId cp.1.quantity) db
  | 3 =>
    let keep := fun (c : CartItem) => !(c.userId == s.userId && s.cartItemIds.contains c.id)
    { db with carts := db.carts.filter keep }
  | _ => updateSession db s.id (fun ps => { ps with orderId := some oid })

/-- Run the first `k` writes of materialization in order. -/
def runOrderSteps (s : PaymentSession) (oid : String)
    (items : List (CartItem × Product)) (db : DB) (k : Nat) : DB :=
  (List.range k).foldl (fun d n => orderCreateStep s oid items n d) db

/-- The first `k` writes of `createOrderFromPaymentSession`, with the cart
join taken from the entry state `db` (the code fetches `cartItems` once,
before any write). -/
def createOrderUpTo (db : DB) (s : PaymentSession) (oid : String) (k : Nat) : DB :=
  runOrderSteps s oid (cartWithProduct db s.userId s.cartItemIds) db k

/-- `createOrderFromPaymentSession` when every write succeeds: all five
writes, in source order.  `oid` is the id MongoDB assigns the new order. -/
def createOrderFromPaymentSession (db : DB) (s : PaymentSession) (oid : String) : DB :=
  createOrderUpTo db s oid 5

/-- `createOrderFromPaymentSession` including its `try`/`catch`: with
`failAfter = none` every write succeeds; with `failAfter = some k` the
write after the first `k` throws, the catch marks the session FAILED and
rethrows (`Except.error` carries the resulting state). -/
def materializeAttempt (db : DB) (s : PaymentSession) (oid : String)
    (failAfter : Option Nat) : Except DB DB :=
  match failAfter with
  | none => Except.ok (createOrderFromPaymentSession db s oid)
  | some k => Except.error (setSessionFailed (createOrderUpTo db s oid (min k 4)) s.id)

/-- The decoded PhonePe callback body (`callbackData.data`). -/
structure CallbackData where
  merchantTransactionId : String
  transactionId : String
  amount : Int
  state : String
  responseCode : String
deriving DecidableEq, Repr

/-- `generateChecksum(payload, endpoint)`: sha256 hex of
`payload + endpoint + saltKey`, then `### + saltIndex`. -/
def generateChecksum (h : String → String) (saltKey saltIndex : String)
    (payload endpoint : String) : String :=
  h (payload ++ endpoint ++ saltKey) ++ "###" ++ saltIndex

/-- `PhonePeService.verifyCallback`: recompute the checksum of the raw
payload with the empty endpoint and compare with the supplied digest.  Total by
construction (the source wraps it in `try`/`catch` returning `false`). -/
def verifyCallback (h : String → String) (saltKey saltIndex : String)
    (response checksum : String) : Bool :=
  generateChecksum h saltKey saltIndex response "" == checksum

/-- The status the callback handler writes for a reported gateway state:
`COMPLETED` maps to SUCCESS and everything else to FAILED. -/
def callbackNewStatus (state : String) : SessionStatus :=
  if state == "COMPLETED" then SessionStatus.SUCCESS else SessionStatus.FAILED

/-- The status the status poller writes for a reported gateway state:
COMPLETED ↦ SUCCESS, FAILED ↦ FAILED, anything else ↦ PENDING. -/
def pollNewStatus (state : String) : SessionStatus :=
  if state == "COMPLETED" then SessionStatus.SUCCESS
  else if state == "FAILED" then SessionStatus.FAILED
  else SessionStatus.PENDING

/-- Result of the callback handler: HTTP status plus resulting store. -/
structure HandlerResult where
  status : Nat
  db : DB
deriving DecidableEq, Repr

/-- `handlePhonePeCallback`.  `response?`/`checksum?` are the request body
field and `x-verify` header (absent = `none`); `decode` is the abstract
base64+JSON decoding of the payload (`none` = it throws, caught by the
outer handler as a 500); `oid` the id of the order materialization would
create; `failAfter` as in `materializeAttempt`.  Note the session update
is unconditional: there is no `status == PENDING` guard, and
materialization is invoked with the pre-update session snapshot. -/
def handlePhonePeCallback (h : String → String) (saltKey saltIndex : String)
    (decode : String → Option CallbackData) (db : DB)
    (response? checksum? : Option String) (now : Int) (oid : String)
    (failAfter : Option Nat) : HandlerResult :=
  match response?, checksum? with
  | some response, some checksum =>
    if response == "" || checksum == "" then ⟨400, db⟩
    else if !(verifyCallback h saltKey saltIndex response checksum) then ⟨400, db⟩
    else
      match decode response with
      | none => ⟨500, db⟩
      | some cd =>
        match findSessionByTxn db cd.merchantTransactionId with
        | none => ⟨404, db⟩
        | some ps =>
          let db1 := updateSession db ps.id (fun s =>
            { s with
              status := callbackNewStatus cd.state
              phonePeTransactionId := some cd.transactionId
              completedAt := if cd.state == "COMPLETED" then some now else none })
          if cd.state == "COMPLETED" then
            match materializeAttempt db1 ps oid failAfter with
            | Except.ok db2 => ⟨200, db2⟩
            | Except.error db2 => ⟨500, db2⟩
          else ⟨200, db1⟩
  | _, _ => ⟨400, db⟩

/-- The `data` object of a PhonePe status-check response. -/
structure StatusData where
  state : String
  transactionId : String
deriving DecidableEq, Repr

/-- Result of the status poller: HTTP status, error body, reported
`paymentStatus`, and resulting store. -/
structure PollResult where
  status : Nat
  error : Option String
  paymentStatus : Option SessionStatus
  db : DB
deriving DecidableEq, Repr

/-- `verifyPaymentStatus`.  `statusCheck` is the outcome of
`phonePeService.checkPaymentStatus` (`Except.error` = it threw, caught and
ignored; otherwise the `success` flag and optional `data`).  A session
that does not exist and a session owned by another user both fall into
the same `!paymentSession || paymentSession.userId !== userId` branch. -/
def verifyPaymentStatus (db : DB) (transactionId userId : String)
    (statusCheck : Except Unit (Bool × Option StatusData)) (now : Int)
    (oid : String) (failAfter : Option Nat) : PollResult :=
  match findSessionByTxn db transactionId with
  | none => ⟨404, some "Payment session not found", none, db⟩
  | some ps =>
    if ps.userId != userId then ⟨404, some "Payment session not found", none, db⟩
    else if ps.status == SessionStatus.PENDING then
      match statusCheck with
      | Except.error _ => ⟨200, none, some ps.status, db⟩
      | Except.ok (succ, data?) =>
        match data? with
        | none => ⟨200, none, some ps.status, db⟩
        | some d =>
          if succ then
            let newStatus := pollNewStatus d.state
            let ups : PaymentSession :=
              { ps with
                status := newStatus
                phonePeTransactionId := some d.transactionId
                completedAt :=
                  if newStatus == SessionStatus.SUCCESS then some now else none }
            let db1 := updateSession db ps.id (fun _ => ups)
            if newStatus == SessionStatus.SUCCESS && ps.orderId == none then
              match materializeAttempt db1 ups oid failAfter with
              | Except.ok db2 => ⟨200, none, some newStatus, db2⟩
              | Except.error db2 => ⟨500, some "Internal server error", none, db2⟩
            else ⟨200, none, some newStatus, db1⟩
          else ⟨200, none, some ps.status, db⟩
    else ⟨200, none, some ps.status, db⟩

/-- `cleanupExpiredSessions`: `updateMany` over sessions with
`status == PENDING` and `expiresAt < now`, setting EXPIRED. -/
def cleanupExpiredSessions (db : DB) (now : Int) : DB :=
  { db with sessions := db.sessions.map (fun s =>
      if s.status == SessionStatus.PENDING && s.expiresAt < now then
        { s with status := SessionStatus.EXPIRED }
      else s) }

/-- The JSON body of a PhonePe pay response (fields the code reads). -/
structure PhonePeResp where
  success : Bool
  code : String
  message : String
deriving DecidableEq, Repr

/-- Outcome of the `fetch` in `initiatePayment`: either the promise
rejected (timeout, DNS, TLS), or a response arrived with `ok` flag and a
parsed JSON body (`none` = `response.json()` threw). -/
inductive HttpOutcome where
  | transportError
  | response (ok : Bool) (body : Option PhonePeResp)
deriving DecidableEq, Repr

/-- `PhonePeService.initiatePayment` as a function of the HTTP outcome.
`Except.error msg` models a thrown `Error(msg)`.  The source throws
`HTTP error!` on `!response.ok`, which the surrounding catch converts to
the same generic `Payment service unavailable` raised for transport
failures; only the parsed body of an `ok` response is returned. -/
def initiatePayment (outcome : HttpOutcome) : Except String PhonePeResp :=
  match outcome with
  | HttpOutcome.transportError => Except.error "Payment service unavailable"
  | HttpOutcome.response ok body =>
    if !ok then Except.error "Payment service unavailable"
    else
      match body with
      | none => Except.error "Payment service unavailable"
      | some b => Except.ok b

/-- The shipping address fields validated by `createPaymentSession`
(empty string models a missing/falsy field). -/
structure ShippingAddress where
  name : String
  phone : String
  address : String
  city : String
  state : String
  pincode : String
deriving DecidableEq, Repr

/-- The `requiredFields` loop of `createPaymentSession`. -/
def requiredFieldsPresent (a : ShippingAddress) : Bool :=
  a.name != "" && a.phone != "" && a.address != "" &&
  a.city != "" && a.state != "" && a.pincode != ""

/-- Result of `createPaymentSession`: HTTP status, resulting store, and
the session record handed to `prisma.paymentSession.create` (if reached). -/
structure CreateSessionResult where
  status : Nat
  db : DB
  created : Option PaymentSession
deriving DecidableEq, Repr

/-- `createPaymentSession`.  `hasValidationErrors` models the
express-validator outcome, `txnId`/`sessionId` the generated ids, `now`
`Date.now()`, `payment` the outcome of `phonePeService.initiatePayment`
(`Except.error` = it threw, caught by the outer handler as a 500), and
`payUrl` the redirect URL read from the gateway response.  Every branch
leaves products and carts untouched; the only insert is a PENDING session
expiring 15 minutes after `now`. -/
def createPaymentSession (db : DB) (userId : String) (addr : ShippingAddress)
    (cartItemIds : List String) (hasValidationErrors : Bool)
    (txnId sessionId : String) (now : Int)
    (payment : Except String PhonePeResp) (payUrl : Option String) :
    CreateSessionResult :=
  if hasValidationErrors then ⟨400, db, none⟩
  else if !(db.users.contains userId) then ⟨404, db, none⟩
  else if !(requiredFieldsPresent addr) then ⟨400, db, none⟩
  else
    let cartRows := selectedCartItems db userId cartItemIds
    if cartRows.length != cartItemIds.length then ⟨400, db, none⟩
    else
      let items := cartWithProduct db userId cartItemIds
      if items.any (fun cp => !cp.2.isActive) then ⟨400, db, none⟩
      else if items.any (fun cp => cp.2.stock < cp.1.quantity) then ⟨400, db, none⟩
      else
        let totalAmount := items.foldl (fun sum cp => sum + cp.2.price * cp.1.quantity) 0
        let ps : PaymentSession :=
          ⟨sessionId, txnId, userId, totalAmount, cartItemIds,
            SessionStatus.PENDING, now + 15 * 60 * 1000, none, none, none, none⟩
        let db1 : DB := { db with sessions := db.sessions ++ [ps] }
        match payment with
        | Except.error _ => ⟨500, db1, some ps⟩
        | Except.ok resp =>
          if !resp.success then
            ⟨400, setSessionFailed db1 ps.id, some ps⟩
          else
            ⟨201, updateSession db1 ps.id (fun s => { s with paymentUrl := payUrl }),
              some ps⟩

/-! Concrete fixtures used by the scenario theorems. -/

/-- A stand-in for the abstract sha256 hex digest in concrete scenarios. -/
def demoHash : String → String := fun _ => "HH"

/-- The checksum `demoHash` validates (salt key "k", salt index "1"). -/
def demoChecksum : String := "HH###1"

/-- Decoder fixture: payload "resp" decodes to a COMPLETED callback for
transaction T1. -/
def decodeCompleted : String → Option CallbackData := fun r =>
  if r == "resp" then some ⟨"T1", "PPT1", 20000, "COMPLETED", "SUCCESS"⟩ else none

/-- Decoder fixture: payload "resp" decodes to a PENDING callback for
transaction T1. -/
def decodeStillPending : String → Option CallbackData := fun r =>
  if r == "resp" then some ⟨"T1", "PPT1", 20000, "PENDING", "PAYMENT_PENDING"⟩ else none

/-- A complete shipping address. -/
def demoAddr : ShippingAddress := ⟨"A", "9999999999", "Some Street 10", "City", "ST", "400001"⟩

/-- A product with price 100 and stock 5. -/
def demoProduct : Product := ⟨"p1", "Gadget", 100, 5, true⟩

/-- User u1 holds 2 units of p1 in cart row c1. -/
def demoCart : CartItem := ⟨"c1", "u1", "p1", 2⟩

/-- A PENDING session for transaction T1 over cart row c1, amount 200,
expiring at t = 1000000. -/
def demoSession : PaymentSession :=
  ⟨"s1", "T1", "u1", 200, ["c1"], SessionStatus.PENDING, 1000000, none, none, none, none⟩

/-- Store with one user, one product, one cart row and the PENDING session. -/
def demoDB : DB := ⟨["u1"], [demoProduct], [demoCart], [demoSession], [], []⟩

/-- Store like `demoDB` but before any session exists. -/
def noSessionDB : DB := ⟨["u1"], [demoProduct], [demoCart], [], [], []⟩

/-- Store where the product has stock 1 while the cart row of the session wants
quantity 3 (stock dropped after the session was created). -/
def lowStockDB : DB :=
  ⟨["u1"], [⟨"p1", "Gadget", 100, 1, true⟩], [⟨"c1", "u1", "p1", 3⟩],
    [⟨"s1", "T1", "u1", 300, ["c1"], SessionStatus.PENDING, 1000000, none, none, none, none⟩],
    [], []⟩

/-- First delivery of the successful T1 callback against `demoDB`. -/
def dupRun1 : HandlerResult :=
  handlePhonePeCallback demoHash "k" "1" decodeCompleted demoDB
    (some "resp") (some demoChecksum) 500 "o1" none

/-- Second delivery of the very same successful callback, against the
store left by the first delivery. -/
def dupRun2 : HandlerResult :=
  handlePhonePeCallback demoHash "k" "1" decodeCompleted dupRun1.db
    (some "resp") (some demoChecksum) 600 "o2" none

/-- Claim C1: delivering the same successful callback twice is claimed to
be a no-op the second time, with exactly one Order created in total.  On
the code the callback handler has no PENDING guard: the second delivery
finds the session already in SUCCESS, mutates it again, re-runs
materialization, and a second Order row is created (and the session is
re-pointed at it), so re-handling does re-run side effects. -/
theorem C1_duplicate_callback_creates_second_order :
    (findSessionByTxn dupRun1.db "T1").map (fun s => s.status) =
      some SessionStatus.SUCCESS ∧
    dupRun1.db.orders.length = 1 ∧
    dupRun2.status = 200 ∧
    dupRun2.db.orders.length = 2 ∧
    (findSessionByTxn dupRun2.db "T1").map (fun s => s.orderId) = some (some "o2") ∧
    dupRun2.db ≠ dupRun1.db := by decide

/-- `demoDB` after the expiry sweep has run at t = 2000000 (the session
expired at t = 1000000). -/
def expiredDB : DB := cleanupExpiredSessions demoDB 2000000

/-- A successful callback for T1 arriving late, after the sweep. -/
def lateCallbackRun : HandlerResult :=
  handlePhonePeCallback demoHash "k" "1" decodeCompleted expiredDB
    (some "resp") (some demoChecksum) 3000000 "o1" none

/-- Claim C2: once the expiry sweep has set a session to EXPIRED, a
late-arriving completed callback is claimed to be unable to move it to
SUCCESS.  On the code the sweep does guard on PENDING, but the callback
handler does not: it overwrites the EXPIRED session with SUCCESS and
materializes an order for it, so sessions can reach two terminal states. -/
theorem C2_late_callback_resurrects_expired_session :
    (findSessionByTxn expiredDB "T1").map (fun s => s.status) =
      some SessionStatus.EXPIRED ∧
    lateCallbackRun.status = 200 ∧
    (findSessionByTxn lateCallbackRun.db "T1").map (fun s => s.status) =
      some SessionStatus.SUCCESS ∧
    lateCallbackRun.db.orders.length = 1 := by decide

/-- A successful callback for the session of `lowStockDB`, whose cart row
wants 3 units while current stock is 1. -/
def oversellRun : HandlerResult :=
  handlePhonePeCallback demoHash "k" "1" decodeCompleted lowStockDB
    (some "resp") (some demoChecksum) 500 "o1" none

/-- Claim C5: materialization is claimed to re-validate stock per item
and to decrement only when `stock >= quantity`, so stock never becomes
negative.  On the code `createOrderFromPaymentSession` performs no stock
re-validation and issues an unconditional decrement, so a product with
stock 1 and a session quantity of 3 ends at stock -2. -/
theorem C5_unguarded_decrement_drives_stock_negative :
    (findProduct lowStockDB "p1").map (fun p => p.stock) = some 1 ∧
    oversellRun.status = 200 ∧
    (findProduct oversellRun.db "p1").map (fun p => p.stock) = some (-2) := by decide

/-- The per-item stock decrement loop touches only the products list. -/
lemma stockFold_sessions (l : List (CartItem × Product)) (d : DB) :
    (l.foldl (fun d cp => updateProductStock d cp.1.productId cp.1.quantity) d).sessions =
      d.sessions := by
  induction l generalizing d with
  | nil => rfl
  | cons a t ih => exact (ih _).trans rfl

/-- The per-item stock decrement loop leaves the order items untouched. -/
lemma stockFold_orderItems (l : List (CartItem × Product)) (d : DB) :
    (l.foldl (fun d cp => updateProductStock d cp.1.productId cp.1.quantity) d).orderItems =
      d.orderItems := by
  induction l generalizing d with
  | nil => rfl
  | cons a t ih => exact (ih _).trans rfl

/-- The first four materialization writes never touch the sessions list. -/
lemma orderCreateStep_sessions (s : PaymentSession) (oid : String)
    (items : List (CartItem × Product)) (n : Nat) (d : DB) (h : n ≤ 3) :
    (orderCreateStep s oid items n d).sessions = d.sessions := by
  interval_cases n
  · rfl
  · rfl
  · exact stockFold_sessions items d
  · rfl

/-- Any prefix of at most four materialization writes preserves sessions. -/
lemma runOrderSteps_sessions (s : PaymentSession) (oid : String)
    (items : List (CartItem × Product)) (d : DB) (k : Nat) (h : k ≤ 4) :
    (runOrderSteps s oid items d k).sessions = d.sessions := by
  induction k with
  | zero => rfl
  | succ n ih =>
    rw [runOrderSteps, List.range_succ, List.foldl_append]
    show (orderCreateStep s oid items n (runOrderSteps s oid items d n)).sessions = d.sessions
    rw [orderCreateStep_sessions s oid items n _ (by omega)]
    exact ih (by omega)

/-- A callback reporting COMPLETED for T1 whose subsequent materialization
throws at its very first write (`failAfter = some 0`). -/
def failedMatRun : HandlerResult :=
  handlePhonePeCallback demoHash "k" "1" decodeCompleted demoDB
    (some "resp") (some demoChecksum) 500 "o1" (some 0)

/-- Counterexample to claim C3 as stated: after a completed callback whose
materialization fails, the claim says the session remains SUCCESS with
`orderId` null.  On the code the catch branch of
`createOrderFromPaymentSession` rolls the session back to FAILED (the
handler then answers 500), so the session does not remain SUCCESS. -/
theorem C3_counterexample_rolled_back_to_failed :
    failedMatRun.status = 500 ∧
    (findSessionByTxn failedMatRun.db "T1").map (fun s => (s.status, s.orderId)) =
      some (SessionStatus.FAILED, none) := by decide

/-- Claim C3 as amended: whenever materialization fails (after any number
of completed writes), the catch branch marks the session FAILED — with
every other session field, `orderId` included, unchanged — and rethrows.
The session is not left in SUCCESS-without-order. -/
theorem C3_amended_failure_marks_session_failed (db : DB) (s : PaymentSession)
    (oid : String) (k : Nat) :
    ∃ dbe, materializeAttempt db s oid (some k) = Except.error dbe ∧
      dbe.sessions = db.sessions.map
        (fun ps => if ps.id == s.id then { ps with status := SessionStatus.FAILED }
         else ps) := by
  refine ⟨_, rfl, ?_⟩
  show ((createOrderUpTo db s oid (min k 4)).sessions.map _) = _
  rw [createOrderUpTo, runOrderSteps_sessions _ _ _ _ _ (Nat.min_le_right k 4)]

/-- The session created by `createPaymentSession` on `noSessionDB` when
the product still costs 100: amount frozen at 200 for quantity 2. -/
def demoCreate : CreateSessionResult :=
  createPaymentSession noSessionDB "u1" demoAddr ["c1"] false "T1" "s1" 0
    (Except.ok ⟨true, "OK", "ok"⟩) (some "url")

/-- The store after the session was created and the catalog price of p1
was then raised from 100 to 250. -/
def priceChangedDB : DB := { demoCreate.db with products := [⟨"p1", "Gadget", 250, 5, true⟩] }

/-- The successful callback for T1 arriving after the price change. -/
def priceChangeRun : HandlerResult :=
  handlePhonePeCallback demoHash "k" "1" decodeCompleted priceChangedDB
    (some "resp") (some demoChecksum) 500 "o1" none

/-- Counterexample to claim C4 as stated: the session was created while
p1 cost 100 (the frozen session amount is 200 = 100 x 2), the catalog
price then rose to 250, and materialization records the OrderItem at
price 250 — the current catalog price — not the 100 of session-creation
time, contradicting the claim. -/
theorem C4_counterexample_order_item_gets_current_price :
    (findProduct noSessionDB "p1").map (fun p => p.price) = some 100 ∧
    (findSessionByTxn demoCreate.db "T1").map (fun s => s.amount) = some 200 ∧
    priceChangeRun.db.orderItems.map (fun i => i.price) = [250] ∧
    ([250] : List Int) ≠ [100] := by decide

/-- Claim C4 as amended: every OrderItem written by materialization
carries the price of its product as found in the store at materialization
time (the cart rows are re-joined with their current product rows);
nothing restores a session-creation snapshot.  The order total, in
contrast, is the frozen session amount. -/
theorem C4_amended_price_is_current_catalog_price (db : DB) (s : PaymentSession)
    (oid : String) :
    (createOrderFromPaymentSession db s oid).orderItems =
      db.orderItems ++ (cartWithProduct db s.userId s.cartItemIds).map
        (fun cp => ⟨oid, cp.1.productId, cp.1.quantity, cp.2.price⟩) ∧
    ∀ cp ∈ cartWithProduct db s.userId s.cartItemIds,
      findProduct db cp.1.productId = some cp.2 := by
  constructor
  · have key : ∀ (items : List (CartItem × Product)) (d : DB),
        (runOrderSteps s oid items d 5).orderItems =
          d.orderItems ++ items.map
            (fun cp => ⟨oid, cp.1.productId, cp.1.quantity, cp.2.price⟩) := by
      intro items d
      exact (stockFold_orderItems items
        (orderCreateStep s oid items 1 (orderCreateStep s oid items 0 d))).trans rfl
    exact key _ db
  · intro cp hcp
    rcases List.mem_filterMap.mp hcp with ⟨c, hc, hmap⟩
    rcases Option.map_eq_some'.mp hmap with ⟨p, hfind, hpair⟩
    cases hpair
    exact hfind

/-- Witness for the amended C4 theorem, at the concrete `demoDB` store:
the order items written for the T1 session are exactly the cart join
priced at the current catalog price, and the joined product of cart row
c1 really is the current p1 row. -/
theorem C4_amended_price_is_current_catalog_price_witness :
    (createOrderFromPaymentSession demoDB demoSession "o1").orderItems =
      demoDB.orderItems ++ (cartWithProduct demoDB demoSession.userId
        demoSession.cartItemIds).map
        (fun cp => ⟨"o1", cp.1.productId, cp.1.quantity, cp.2.price⟩) ∧
    findProduct demoDB "p1" = some demoProduct :=
  ⟨(C4_amended_price_is_current_catalog_price demoDB demoSession "o1").1,
    (C4_amended_price_is_current_catalog_price demoDB demoSession "o1").2
      (demoCart, demoProduct) (by decide)⟩

/-- A gateway-reported failure body, as PhonePe sends with a non-2xx
HTTP status. -/
def failBody : PhonePeResp := ⟨false, "INTERNAL_SERVER_ERROR", "server error"⟩

/-- Counterexample to claim C6 as stated: for a non-success HTTP status
the claim says `initiatePayment` returns `{success:false, error}` and
never throws, keeping a distinct signal for transport failures.  On the
code a non-ok response throws, and the catch converts it into exactly the
same generic error a transport failure produces. -/
theorem C6_counterexample_http_error_throws :
    initiatePayment (HttpOutcome.response false (some failBody)) =
      Except.error "Payment service unavailable" ∧
    initiatePayment (HttpOutcome.response false (some failBody)) =
      initiatePayment HttpOutcome.transportError := ⟨rfl, rfl⟩

/-- Claim C6 as amended: a gateway-reported failure code carried in a 2xx
response body is returned as a `{success:false}` result without throwing,
but a non-success HTTP status makes `initiatePayment` throw the same
generic error as a transport failure (timeout, DNS, TLS), so there is no
distinct transport-error signal. -/
theorem C6_amended_only_2xx_bodies_are_returned :
    (∀ b : PhonePeResp, initiatePayment (HttpOutcome.response true (some b)) =
      Except.ok b) ∧
    (∀ body : Option PhonePeResp, initiatePayment (HttpOutcome.response false body) =
      Except.error "Payment service unavailable") ∧
    initiatePayment HttpOutcome.transportError =
      Except.error "Payment service unavailable" :=
  ⟨fun _ => rfl, fun _ => rfl, rfl⟩

/-- The status poller answering a gateway report of state PENDING for the
still-pending T1 session. -/
def pollPendingRun : PollResult :=
  verifyPaymentStatus demoDB "T1" "u1" (Except.ok (true, some ⟨"PENDING", "PPT1"⟩))
    500 "o1" none

/-- The callback handler receiving a callback whose state is PENDING for
the same session. -/
def callbackPendingRun : HandlerResult :=
  handlePhonePeCallback demoHash "k" "1" decodeStillPending demoDB
    (some "resp") (some demoChecksum) 500 "o1" none

/-- Counterexample to claim C7 as stated: the two paths are claimed to
share one transition function over gateway states.  For the reported
state PENDING the callback handler maps a PENDING session to FAILED while
the poller keeps it PENDING, so the paths disagree. -/
theorem C7_counterexample_paths_diverge_on_pending :
    callbackNewStatus "PENDING" = SessionStatus.FAILED ∧
    pollNewStatus "PENDING" = SessionStatus.PENDING ∧
    (findSessionByTxn callbackPendingRun.db "T1").map (fun s => s.status) =
      some SessionStatus.FAILED ∧
    (findSessionByTxn pollPendingRun.db "T1").map (fun s => s.status) =
      some SessionStatus.PENDING := by decide

/-- Claim C7 as amended: the two per-path mappings agree on the terminal
gateway states COMPLETED and FAILED, but on every other reported state
(PENDING included) the callback handler writes FAILED while the poller
keeps the session PENDING. -/
theorem C7_amended_agreement_only_on_terminal_states (state : String) :
    (state = "COMPLETED" ∨ state = "FAILED" →
      callbackNewStatus state = pollNewStatus state) ∧
    (state ≠ "COMPLETED" → state ≠ "FAILED" →
      callbackNewStatus state = SessionStatus.FAILED ∧
      pollNewStatus state = SessionStatus.PENDING) := by
  constructor
  · rintro (rfl | rfl) <;> rfl
  · intro h1 h2
    have b1 : (state == "COMPLETED") = false := by
      simpa using h1
    have b2 : (state == "FAILED") = false := by
      simpa using h2
    constructor
    · simp [callbackNewStatus, b1]
    · simp [pollNewStatus, b1, b2]

/-- Witness for the amended C7 theorem: instantiated at the agreeing
state COMPLETED and at the diverging state PENDING. -/
theorem C7_amended_agreement_only_on_terminal_states_witness :
    callbackNewStatus "COMPLETED" = pollNewStatus "COMPLETED" ∧
    (callbackNewStatus "PENDING" = SessionStatus.FAILED ∧
      pollNewStatus "PENDING" = SessionStatus.PENDING) :=
  ⟨(C7_amended_agreement_only_on_terminal_states "COMPLETED").1 (Or.inl rfl),
    (C7_amended_agreement_only_on_terminal_states "PENDING").2
      (by decide) (by decide)⟩

/-- Claim C8: whenever the supplied digest does not verify against the
raw payload — tampered payload bytes included, since the recomputed
checksum is a function of the raw payload — the callback handler answers
400 and the store is untouched: no session field changes and no order is
created.  `verifyCallback` is total (the source catches and returns
false), so no malformed input can make it throw. -/
theorem C8_invalid_checksum_rejected_without_mutation
    (h : String → String) (saltKey saltIndex : String)
    (decode : String → Option CallbackData) (db : DB)
    (response checksum : String) (now : Int) (oid : String) (failAfter : Option Nat)
    (hfail : verifyCallback h saltKey saltIndex response checksum = false) :
    handlePhonePeCallback h saltKey saltIndex decode db (some response) (some checksum)
      now oid failAfter = ⟨400, db⟩ := by
  unfold handlePhonePeCallback
  by_cases hempty : (response == "" || checksum == "") = true
  · simp [hempty]
  · simp only [Bool.not_eq_true] at hempty
    simp [hempty, hfail]

/-- Witness for the C8 theorem: a wrong digest for the demo payload is
rejected with 400 and leaves `demoDB` unchanged. -/
theorem C8_invalid_checksum_rejected_without_mutation_witness :
    verifyCallback demoHash "k" "1" "resp" "WRONG" = false ∧
    handlePhonePeCallback demoHash "k" "1" decodeCompleted demoDB
      (some "resp") (some "WRONG") 500 "o1" none = ⟨400, demoDB⟩ :=
  ⟨by decide,
    C8_invalid_checksum_rejected_without_mutation demoHash "k" "1" decodeCompleted
      demoDB "resp" "WRONG" 500 "o1" none (by decide)⟩

/-- Claim C9: `createPaymentSession`, on every path — validation failure,
missing user or address field, cart mismatch, inactive product, low
stock, gateway throw, gateway-reported failure, or success — never
changes any product row (so no stock decrement) and never changes any
cart row; the only record it hands to the store for insertion is a
PENDING session expiring exactly 15 minutes after `now`. -/
theorem C9_session_creation_frame (db : DB) (userId : String) (addr : ShippingAddress)
    (cartItemIds : List String) (hv : Bool) (txnId sessionId : String) (now : Int)
    (payment : Except String PhonePeResp) (payUrl : Option String) :
    (createPaymentSession db userId addr cartItemIds hv txnId sessionId now
      payment payUrl).db.products = db.products ∧
    (createPaymentSession db userId addr cartItemIds hv txnId sessionId now
      payment payUrl).db.carts = db.carts ∧
    ∀ ps, (createPaymentSession db userId addr cartItemIds hv txnId sessionId now
      payment payUrl).created = some ps →
        ps.status = SessionStatus.PENDING ∧ ps.expiresAt = now + 15 * 60 * 1000 := by
  refine ⟨?_, ?_, ?_⟩
  · unfold createPaymentSession
    dsimp only
    repeat' split
    all_goals rfl
  · unfold createPaymentSession
    dsimp only
    repeat' split
    all_goals rfl
  · unfold createPaymentSession
    dsimp only
    repeat' split
    all_goals intro ps hps
    all_goals first
      | exact Option.noConfusion hps
      | (cases Option.some.inj hps; exact ⟨rfl, rfl⟩)

/-- The PENDING session record inserted by `demoCreate`. -/
def demoCreatedSession : PaymentSession :=
  ⟨"s1", "T1", "u1", 200, ["c1"], SessionStatus.PENDING, 900000, none, none, none, none⟩

/-- Witness for the C9 theorem at the concrete successful run on
`noSessionDB`. -/
theorem C9_session_creation_frame_witness :
    (createPaymentSession noSessionDB "u1" demoAddr ["c1"] false "T1" "s1" 0
      (Except.ok ⟨true, "OK", "ok"⟩) (some "url")).db.products = noSessionDB.products ∧
    (demoCreatedSession.status = SessionStatus.PENDING ∧
      demoCreatedSession.expiresAt = 0 + 15 * 60 * 1000) :=
  ⟨(C9_session_creation_frame noSessionDB "u1" demoAddr ["c1"] false "T1" "s1" 0
      (Except.ok ⟨true, "OK", "ok"⟩) (some "url")).1,
    (C9_session_creation_frame noSessionDB "u1" demoAddr ["c1"] false "T1" "s1" 0
      (Except.ok ⟨true, "OK", "ok"⟩) (some "url")).2.2 demoCreatedSession (by decide)⟩

/-- Claim C10: the status endpoint responds to a session owned by another
user with the very same 404 body it gives for a transaction id that has
no session at all, and touches nothing — a caller cannot distinguish a
foreign session from a nonexistent one. -/
theorem C10_foreign_session_gets_same_not_found (db : DB)
    (transactionId userId : String)
    (statusCheck : Except Unit (Bool × Option StatusData)) (now : Int) (oid : String)
    (failAfter : Option Nat)
    (hcase : findSessionByTxn db transactionId = none ∨
      ∃ ps, findSessionByTxn db transactionId = some ps ∧ ps.userId ≠ userId) :
    verifyPaymentStatus db transactionId userId statusCheck now oid failAfter =
      ⟨404, some "Payment session not found", none, db⟩ := by
  unfold verifyPaymentStatus
  rcases hcase with hnone | ⟨ps, hfind, hne⟩
  · rw [hnone]
  · rw [hfind]
    simp [bne_iff_ne.mpr hne]

/-- Witness for the C10 theorem: polling T1 (owned by u1) as u2 yields
the same 404 constant as polling a nonexistent transaction. -/
theorem C10_foreign_session_gets_same_not_found_witness :
    verifyPaymentStatus demoDB "T1" "u2" (Except.error ()) 500 "o1" none =
      ⟨404, some "Payment session not found", none, demoDB⟩ ∧
    verifyPaymentStatus demoDB "TXMISSING" "u1" (Except.error ()) 500 "o1" none =
      ⟨404, some "Payment session not found", none, demoDB⟩ :=
  ⟨C10_foreign_session_gets_same_not_found demoDB "T1" "u2" (Except.error ()) 500 "o1"
      none (Or.inr ⟨demoSession, by decide, by decide⟩),
    C10_foreign_session_gets_same_not_found demoDB "TXMISSING" "u1" (Except.error ())
      500 "o1" none (Or.inl (by decide))⟩

end MahaLaxmi
